import Mathlib

/-!
Verification of the `ccc_hackingcosmos` analysis scripts.

Shallow embedding conventions:
* Machine floats are modelled by exact rationals `ℚ`; decimal literals such as
  `0.45` denote the exact decimal rational.
* Transcendental library primitives (`np.sin`, `np.arcsin`, `np.arctan2`,
  `np.sqrt`, `hp.ang2pix`, `hp.query_disc`, `np.std`, `scipy.stats.pearsonr`,
  NaN detection, ...) are abstracted as parameters, since the claims under
  study are independent of their values.
* Console output is modelled by a single `Effect.console` constructor;
  file-system effects (`read_map`, `to_csv`, `savefig`) are modelled exactly.
-/

/-- Abstraction of the numpy/healpy primitives used by the copy-pasted walker
helpers: trigonometric functions, degree/radian conversions, the HEALPix
`ang2pix` lookup, NaN detection and the constant `np.pi/2`. -/
structure TrigOps where
  sin : ℚ → ℚ
  cos : ℚ → ℚ
  arcsin : ℚ → ℚ
  arctan2 : ℚ → ℚ → ℚ
  radians : ℚ → ℚ
  degrees : ℚ → ℚ
  ang2pix : ℕ → ℚ → ℚ → ℕ
  isnan : ℚ → Bool
  halfPi : ℚ

namespace SabuesoV8

/-- Input FITS path hard-coded in `6_sabueso_v8_final.py`. -/
def INPUT_FILE : String := "data/raw/COM_CMB_IQU-sevem_2048_R4.00.fits"

def START_LAT : ℚ := -41.81

def START_LON : ℚ := 354.38

def INITIAL_BEARING : ℚ := 204.3

def STEP_SIZE : ℚ := 0.2

def MAX_STEPS : ℕ := 1500

/-- Embedding of `get_signal_at(lat, lon, angle, map_I, map_P, nside)` from
`6_sabueso_v8_final.py`: probe the signal 0.5 degrees ahead and return
`abs(val_I * val_P)` with NaN values replaced by `0`. -/
def get_signal_at (t : TrigOps) (lat lon angle : ℚ) (map_I map_P : ℕ → ℚ)
    (nside : ℕ) : ℚ :=
  let dist_rad := t.radians 0.5
  let lat_r := t.radians lat
  let lon_r := t.radians lon
  let ang_r := t.radians angle
  let new_lat_r := t.arcsin (t.sin lat_r * t.cos dist_rad +
    t.cos lat_r * t.sin dist_rad * t.cos ang_r)
  let new_lon_r := lon_r + t.arctan2 (t.sin ang_r * t.sin dist_rad * t.cos lat_r)
    (t.cos dist_rad - t.sin lat_r * t.sin new_lat_r)
  let pix := t.ang2pix nside (t.halfPi - new_lat_r) new_lon_r
  let val_I := if t.isnan (map_I pix) then 0 else map_I pix
  let val_P := if t.isnan (map_P pix) then 0 else map_P pix
  |val_I * val_P|

/-- Embedding of `move(lat, lon, angle, step_deg)` from
`6_sabueso_v8_final.py`: great-circle step on the sphere. -/
def move (t : TrigOps) (lat lon angle step_deg : ℚ) : ℚ × ℚ :=
  let lat_r := t.radians lat
  let lon_r := t.radians lon
  let ang_r := t.radians angle
  let dist_r := t.radians step_deg
  let new_lat_r := t.arcsin (t.sin lat_r * t.cos dist_r +
    t.cos lat_r * t.sin dist_r * t.cos ang_r)
  let new_lon_r := lon_r + t.arctan2 (t.sin ang_r * t.sin dist_r * t.cos lat_r)
    (t.cos dist_r - t.sin lat_r * t.sin new_lat_r)
  (t.degrees new_lat_r, t.degrees new_lon_r)

/-- Python float modulo `x % m` for a positive modulus `m`. -/
def pymod (x m : ℚ) : ℚ := x - m * ⌊x / m⌋

/-- Wrap of an absolute angle difference used twice in the radar maneuver:
`if diff > 180: diff = 360 - diff`. -/
def wrapDiff (d : ℚ) : ℚ := if 180 < d then 360 - d else d

/-- The scan angles `np.arange(0, 360, 5)` of the radar maneuver, written
out as the literal list of the 72 multiples of 5 below 360. -/
def scan_angles : List ℚ :=
  [0, 5, 10, 15, 20, 25, 30, 35, 40, 45, 50, 55, 60, 65, 70, 75, 80, 85, 90,
   95, 100, 105, 110, 115, 120, 125, 130, 135, 140, 145, 150, 155, 160, 165,
   170, 175, 180, 185, 190, 195, 200, 205, 210, 215, 220, 225, 230, 235, 240,
   245, 250, 255, 260, 265, 270, 275, 280, 285, 290, 295, 300, 305, 310, 315,
   320, 325, 330, 335, 340, 345, 350, 355]

/-- The micro-correction candidates `[-8, -4, 0, 4, 8]` of the autopilot. -/
def adj_candidates : List ℚ := [-8, -4, 0, 4, 8]

/-- Greedy fold skeleton of the radar loop: skip the candidates failing the
predicate `p` (the `continue`), otherwise keep the first strict improver of
the running maximum, exactly as `if scan_sig > max_scan_sig` does. -/
def skipFold (p : ℚ → Prop) [DecidablePred p] (f : ℚ → ℚ) (l : List ℚ)
    (init : ℚ × ℚ) : ℚ × ℚ :=
  l.foldl (fun acc ang =>
    if p ang then acc
    else
      let s := f ang
      if acc.2 < s then (ang, s) else acc) init

/-- Greedy fold skeleton of the autopilot loop (no skip predicate). -/
def pickFold (f : ℚ → ℚ) (l : List ℚ) (init : ℚ × ℚ) : ℚ × ℚ :=
  l.foldl (fun acc adj =>
    let s := f adj
    if acc.2 < s then (adj, s) else acc) init

/-- Signal probed at a scan angle with the heuristic geometric bonus of the
radar maneuver: multiply by `1.2` when the turn angle (the once-wrapped
absolute difference `abs(ang - current_bearing)`) lies strictly between 60
and 85 degrees. -/
def weightedScanSig (t : TrigOps) (map_I map_P : ℕ → ℚ) (nside : ℕ)
    (lat lon bearing ang : ℚ) : ℚ :=
  let scan_sig := get_signal_at t lat lon ang map_I map_P nside
  let turn_angle := wrapDiff |ang - bearing|
  if 60 < turn_angle ∧ turn_angle < 85 then scan_sig * 1.2 else scan_sig

/-- Radar maneuver of `run_spider_v8`: scan the 72 multiples of 5 degrees,
skipping angles within 45 degrees of the reverse bearing
`(current_bearing + 180) % 360`, and keep the angle of maximal weighted
signal; the accumulator starts at `(current_bearing, -1)`. -/
def radarScan (t : TrigOps) (map_I map_P : ℕ → ℚ) (nside : ℕ)
    (lat lon bearing : ℚ) : ℚ × ℚ :=
  let reverse_angle := pymod (bearing + 180) 360
  skipFold (fun ang => wrapDiff |ang - reverse_angle| < 45)
    (weightedScanSig t map_I map_P nside lat lon bearing)
    scan_angles (bearing, -1)

/-- Autopilot micro-correction of `run_spider_v8`: probe the five bearing
adjustments and keep the one of maximal signal; the accumulator starts at
`(0, -1)`. -/
def walkScan (t : TrigOps) (map_I map_P : ℕ → ℚ) (nside : ℕ)
    (lat lon bearing : ℚ) : ℚ × ℚ :=
  pickFold (fun adj => get_signal_at t lat lon (bearing + adj) map_I map_P nside)
    adj_candidates (0, -1)

/-- Kinds of points appended to the `path` list. -/
inductive PointType where
  | vertexStart : PointType
  | vertexFound : PointType
  | pathPoint : PointType
deriving DecidableEq

/-- One record of the `path` list (`{'lat': ..., 'lon': ..., 'type': ...}`). -/
structure PathPoint where
  lat : ℚ
  lon : ℚ
  ptype : PointType
deriving DecidableEq

/-- Mutable state of the `run_spider_v8` main loop. -/
structure SpiderState where
  lat : ℚ
  lon : ℚ
  bearing : ℚ
  threshold : ℚ
  stepsOnEdge : ℕ
  totalSteps : ℕ
  verticesFound : ℕ
  path : List PathPoint

/-- One iteration of the `run_spider_v8` main loop body. Returns the state
after the iteration and whether the iteration executed `break` (which in the
source skips the final `total_steps += 1`). -/
def spiderIter (t : TrigOps) (map_I map_P : ℕ → ℚ) (nside : ℕ)
    (s : SpiderState) : SpiderState × Bool :=
  let sig_ahead := get_signal_at t s.lat s.lon s.bearing map_I map_P nside
  if sig_ahead < s.threshold ∧ 20 < s.stepsOnEdge then
    let scan := radarScan t map_I map_P nside s.lat s.lon s.bearing
    let path2 := s.path ++ [⟨s.lat, s.lon, PointType.vertexFound⟩]
    let vf := s.verticesFound + 1
    if 5 ≤ vf then
      ({ lat := s.lat, lon := s.lon, bearing := scan.1,
         threshold := scan.2 * 0.45, stepsOnEdge := 0,
         totalSteps := s.totalSteps, verticesFound := vf, path := path2 }, true)
    else
      ({ lat := s.lat, lon := s.lon, bearing := scan.1,
         threshold := scan.2 * 0.45, stepsOnEdge := 0,
         totalSteps := s.totalSteps + 1, verticesFound := vf, path := path2 }, false)
  else
    let walk := walkScan t map_I map_P nside s.lat s.lon s.bearing
    let new_bearing := s.bearing + walk.1
    let moved := move t s.lat s.lon new_bearing STEP_SIZE
    ({ lat := moved.1, lon := moved.2, bearing := new_bearing,
       threshold := s.threshold, stepsOnEdge := s.stepsOnEdge + 1,
       totalSteps := s.totalSteps + 1, verticesFound := s.verticesFound,
       path := s.path ++ [⟨moved.1, moved.2, PointType.pathPoint⟩] }, false)

/-- Circular distance between two angles in degrees. -/
def circDist (a b : ℚ) : ℚ :=
  min (pymod (a - b) 360) (360 - pymod (a - b) 360)

/-- The `while total_steps < MAX_STEPS` loop of `run_spider_v8`. Returns the
final state together with the number of loop iterations executed. The
recursion terminates because every non-breaking iteration increments
`totalSteps` by exactly one. -/
def spiderLoop (t : TrigOps) (map_I map_P : ℕ → ℚ) (nside : ℕ)
    (s : SpiderState) : SpiderState × ℕ :=
  if h : s.totalSteps < MAX_STEPS then
    if hb : (spiderIter t map_I map_P nside s).2 then
      ((spiderIter t map_I map_P nside s).1, 1)
    else
      let rest := spiderLoop t map_I map_P nside (spiderIter t map_I map_P nside s).1
      (rest.1, rest.2 + 1)
  else (s, 0)
termination_by MAX_STEPS - s.totalSteps
decreasing_by
  have hstep : (spiderIter t map_I map_P nside s).1.totalSteps = s.totalSteps + 1 := by
    simp only [spiderIter] at hb ⊢
    split_ifs at hb ⊢ with h1 h2
    · simp at hb
    · rfl
    · rfl
  simp only [MAX_STEPS] at *
  omega

end SabuesoV8


namespace SabuesoV9

/-- Embedding of `get_signal_at` from `17_sabueso_v9_correction_proof.py`
(copy-pasted from `6_sabueso_v8_final.py`). -/
def get_signal_at (t : TrigOps) (lat lon angle : ℚ) (map_I map_P : ℕ → ℚ)
    (nside : ℕ) : ℚ :=
  let dist_rad := t.radians 0.5
  let lat_r := t.radians lat
  let lon_r := t.radians lon
  let ang_r := t.radians angle
  let new_lat_r := t.arcsin (t.sin lat_r * t.cos dist_rad +
    t.cos lat_r * t.sin dist_rad * t.cos ang_r)
  let new_lon_r := lon_r + t.arctan2 (t.sin ang_r * t.sin dist_rad * t.cos lat_r)
    (t.cos dist_rad - t.sin lat_r * t.sin new_lat_r)
  let pix := t.ang2pix nside (t.halfPi - new_lat_r) new_lon_r
  let val_I := if t.isnan (map_I pix) then 0 else map_I pix
  let val_P := if t.isnan (map_P pix) then 0 else map_P pix
  |val_I * val_P|

/-- Embedding of `move` from `17_sabueso_v9_correction_proof.py`
(copy-pasted from `6_sabueso_v8_final.py`). -/
def move (t : TrigOps) (lat lon angle step_deg : ℚ) : ℚ × ℚ :=
  let lat_r := t.radians lat
  let lon_r := t.radians lon
  let ang_r := t.radians angle
  let dist_r := t.radians step_deg
  let new_lat_r := t.arcsin (t.sin lat_r * t.cos dist_r +
    t.cos lat_r * t.sin dist_r * t.cos ang_r)
  let new_lon_r := lon_r + t.arctan2 (t.sin ang_r * t.sin dist_r * t.cos lat_r)
    (t.cos dist_r - t.sin lat_r * t.sin new_lat_r)
  (t.degrees new_lat_r, t.degrees new_lon_r)

end SabuesoV9

namespace CosmicRuler

/-- Input FITS path hard-coded in `19_cosmic_ruler.py`. -/
def INPUT_FILE : String := "data/raw/COM_CMB_IQU-sevem_2048_R4.00.fits"

/-- Embedding of `move` from `19_cosmic_ruler.py` (copy-pasted from
`6_sabueso_v8_final.py`, comments stripped). -/
def move (t : TrigOps) (lat lon angle step_deg : ℚ) : ℚ × ℚ :=
  let lat_r := t.radians lat
  let lon_r := t.radians lon
  let ang_r := t.radians angle
  let dist_r := t.radians step_deg
  let new_lat_r := t.arcsin (t.sin lat_r * t.cos dist_r +
    t.cos lat_r * t.sin dist_r * t.cos ang_r)
  let new_lon_r := lon_r + t.arctan2 (t.sin ang_r * t.sin dist_r * t.cos lat_r)
    (t.cos dist_r - t.sin lat_r * t.sin new_lat_r)
  (t.degrees new_lat_r, t.degrees new_lon_r)

end CosmicRuler

/-- Observable effects of a script run: console output (collapsed to a single
constructor), reading the FITS sky map, writing a CSV, writing an image,
showing a plot. -/
inductive Effect where
  | console : Effect
  | readFits : String → Effect
  | writeCSV : String → Effect
  | writeImage : String → Effect
  | showPlot : Effect
deriving DecidableEq

namespace SabuesoV8

/-- Effect trace of `run_spider_v8()`, at file-system granularity: every
`print` is one `console` effect, and the console effects emitted from inside
the main loop (progress and vertex messages, variable in number) are elided.
The branch on the existence of `INPUT_FILE` and all file reads and writes
are modelled exactly: on a missing file the function prints an error and
returns at once; otherwise it reads the map, runs the walk and writes
`spider_track_corrected.csv` and `spider_pentagon_proof.png`. -/
def run_spider_v8_trace (file_exists : String → Bool) : List Effect :=
  Effect.console ::
  if file_exists INPUT_FILE = false then
    [Effect.console]
  else
    Effect.console :: Effect.readFits INPUT_FILE ::
    Effect.console :: Effect.console ::
    [Effect.writeCSV "spider_track_corrected.csv", Effect.console,
     Effect.console, Effect.writeImage "spider_pentagon_proof.png",
     Effect.console, Effect.showPlot]

end SabuesoV8

namespace CosmicRuler

/-- Effect trace of `cosmic_ruler()`, at file-system granularity with console
prints collapsed as in `SabuesoV8.run_spider_v8_trace`. The flag
`search_zone_empty` abstracts the data-dependent guard
`len(search_zone_x) == 0`, on which the source prints an error and returns
before writing the image. -/
def cosmic_ruler_trace (file_exists : String → Bool)
    (search_zone_empty : Bool) : List Effect :=
  Effect.console ::
  if file_exists INPUT_FILE = false then
    [Effect.console]
  else
    Effect.readFits INPUT_FILE :: Effect.console ::
    (if search_zone_empty then [Effect.console]
     else [Effect.console, Effect.console,
       Effect.writeImage "cosmic_ruler_result.png", Effect.console,
       Effect.showPlot])

end CosmicRuler

namespace MainFractal

/-- Embedding of `get_ring_pixels(nside, center_vec, radius_rad, width_rad)`
from `1_main_fractal.py`. The healpy disc query `hp.query_disc` is abstracted
as the parameter `query_disc`, mapping a resolution, a center vector and a
radius to the set of pixels of that disc; `np.setdiff1d` is set difference. -/
def get_ring_pixels (query_disc : ℕ → ℚ × ℚ × ℚ → ℚ → Finset ℕ) (nside : ℕ)
    (center_vec : ℚ × ℚ × ℚ) (radius_rad width_rad : ℚ) : Finset ℕ :=
  let inner_rad := radius_rad - width_rad / 2
  let outer_rad := radius_rad + width_rad / 2
  let pixels := query_disc nside center_vec outer_rad
  if 0 < inner_rad then pixels \ query_disc nside center_vec inner_rad
  else pixels

/-- Abstraction of the statistics primitives used by
`process_ring_memory_optimized`: `np.sqrt`, `np.std`, `calculate_hurst`,
`calculate_entropy` and `scipy.stats.pearsonr` (first component). -/
structure StatOps where
  sqrtQ : ℚ → ℚ
  stdQ : List ℚ → ℚ
  hurst : List ℚ → ℚ
  entropyQ : List ℚ → ℚ
  pearson : List ℚ → List ℚ → ℚ

/-- One output record of `process_ring_memory_optimized`. -/
structure RingRecord where
  id_anillo : ℕ
  theta : ℚ
  phi : ℚ
  radio : ℚ
  hurst_I : ℚ
  entropy_I : ℚ
  hurst_P : ℚ
  corr_IP : ℚ
deriving DecidableEq

/-- A task tuple `(ring_id, theta, phi, radius_deg, reduced_indices)`. -/
def RingTask : Type := ℕ × ℚ × ℚ × ℚ × List ℕ

instance : DecidableEq RingTask := by
  unfold RingTask
  infer_instance

/-- Embedding of `process_ring_memory_optimized(args)` from
`1_main_fractal.py`: it reads only its task tuple and the read-only shared
arrays installed by `init_worker`, returns `None` for rings with fewer than
50 pixels or zero variance, and otherwise computes the ring record. -/
def process_ring_memory_optimized (ops : StatOps)
    (shared_I shared_Q shared_U : ℕ → ℚ) (task : RingTask) :
    Option RingRecord :=
  let idxs := task.2.2.2.2
  if idxs.length < 50 then none
  else
    let vals_I := idxs.map shared_I
    let vals_Q := idxs.map shared_Q
    let vals_U := idxs.map shared_U
    let vals_P := (vals_Q.zip vals_U).map fun qu => ops.sqrtQ (qu.1 ^ 2 + qu.2 ^ 2)
    if ops.stdQ vals_I = 0 ∨ ops.stdQ vals_P = 0 then none
    else
      some ⟨task.1, task.2.1, task.2.2.1, task.2.2.2.1,
        ops.hurst vals_I, ops.entropyQ vals_I, ops.hurst vals_P,
        ops.pearson vals_I vals_P⟩

/-- Model of `pool.imap_unordered(process_ring_memory_optimized, tasks)`
followed by `if res: results.append(res)`: the pool delivers the task
results in some arbitrary order (an arbitrary permutation of the task list),
and falsy (`None`) results are dropped. -/
def pool_results (f : RingTask → Option RingRecord) (delivery : List RingTask) :
    List RingRecord :=
  delivery.filterMap f

end MainFractal

namespace CalcSigma

/-- Mean of a vector, `np.mean`. -/
def npMean (N : ℕ) (v : Fin N → ℚ) : ℚ := (∑ i, v i) / N

/-- Embedding of `fast_moran(values, neighbor_indices, W)` from
`4_calc_sigma_significance.py`. `np.sqrt` (inside `np.std`, the population
standard deviation `sqrt(mean((values - mean)**2))`) is abstracted as the
parameter `sqrtQ`; `neighbor_indices` is the `(N, k)` matrix of neighbor
indices and division is rational division. -/
def fast_moran (sqrtQ : ℚ → ℚ) (N k : ℕ) (values : Fin N → ℚ)
    (neighbor_indices : Fin N → Fin k → Fin N) (W : ℚ) : ℚ :=
  let y := fun i => values i - npMean N values
  let std := sqrtQ (npMean N fun i => y i ^ 2)
  let z := fun i => y i / std
  let sum_neighbors := fun i => ∑ j, z (neighbor_indices i j)
  (∑ i, z i * sum_neighbors i) / W

/-- Textbook Moran's I with binary k-nearest-neighbour weights, written from
the claim: `(N / W) * (Σ_i Σ_j in nbrs(i) (x_i - mean)(x_j - mean)) /
(Σ_i (x_i - mean)^2)`. -/
def textbook_moran (N k : ℕ) (values : Fin N → ℚ)
    (neighbor_indices : Fin N → Fin k → Fin N) (W : ℚ) : ℚ :=
  let y := fun i => values i - npMean N values
  ((N : ℚ) / W) * (∑ i, ∑ j, y i * y (neighbor_indices i j)) /
    (∑ i, y i ^ 2)

/-- Number of Monte Carlo simulations in `4_calc_sigma_significance.py`. -/
def N_SIMULATIONS : ℕ := 500000

/-- The count `n_higher = np.sum(random_morans >= real_moran)`, where the
simulated Moran values are modelled as an arbitrary outcome vector. -/
def n_higher (random_morans : Fin N_SIMULATIONS → ℚ) (real_moran : ℚ) : ℕ :=
  (Finset.univ.filter fun i => real_moran ≤ random_morans i).card

/-- The permutation p-value
`p_value = (n_higher + 1) / (N_SIMULATIONS + 1)`. -/
def p_value (random_morans : Fin N_SIMULATIONS → ℚ) (real_moran : ℚ) : ℚ :=
  ((n_higher random_morans real_moran : ℚ) + 1) / ((N_SIMULATIONS : ℚ) + 1)

end CalcSigma

namespace ScriptsIO

/-- Input/output profile of one script of the repository: whether its module
body (or main function) calls `hp.read_map`/`fits.open` on a FITS sky map,
whether it calls `plt.savefig`, and whether it calls `DataFrame.to_csv`. -/
structure ScriptIO where
  name : String
  loads_sky_map : Bool
  writes_plot : Bool
  writes_csv : Bool
deriving DecidableEq

/-- The 39 scripts of the repository with their I/O profiles, read off from
the source of each script. -/
def scripts : List ScriptIO := [
  ⟨"10_cosmic_gps_locator.py", false, false, false⟩,
  ⟨"10_viz_gps_locator.py", false, true, false⟩,
  ⟨"11_cosmic_metric_calculator.py", false, true, false⟩,
  ⟨"12_monte_carlo_sigma_test.py", false, false, false⟩,
  ⟨"12_poincare_bass_zoom2.py", true, true, false⟩,
  ⟨"12_poincare_symphony.py", true, true, false⟩,
  ⟨"13_mirror_dna_test.py", true, true, false⟩,
  ⟨"14_perspective_correction.py", false, true, false⟩,
  ⟨"15_cosmic_asix_hunter.py", false, true, false⟩,
  ⟨"16_master_map_cosmos.py", false, true, false⟩,
  ⟨"17_sabueso_v9_correction_proof.py", true, true, true⟩,
  ⟨"18_dark_energy_buster.py", false, true, false⟩,
  ⟨"19_casimir_dark_energy.py", false, false, false⟩,
  ⟨"19_cosmic_ruler.py", true, true, false⟩,
  ⟨"1_cold_spot_fractal.py", true, false, true⟩,
  ⟨"1_main_fractal.py", true, false, true⟩,
  ⟨"20_holographic_entropy.py", false, false, false⟩,
  ⟨"21_euler_topology_check.py", false, false, false⟩,
  ⟨"22_future_mission_simulator.py", false, true, false⟩,
  ⟨"2_check_coords.py", false, false, false⟩,
  ⟨"3_main_line_hunter.py", true, false, true⟩,
  ⟨"3_trace_vertex.py", true, false, true⟩,
  ⟨"3_viz_fracture_lines.py", false, true, false⟩,
  ⟨"3_viz_identify_culprit.py", false, true, false⟩,
  ⟨"3_viz_scar_biopsy.py", true, true, false⟩,
  ⟨"3_viz_vertex_microscope.py", false, true, false⟩,
  ⟨"4_calc_sigma_significance.py", false, false, false⟩,
  ⟨"5_compare_scar_vs_dust.py", true, true, false⟩,
  ⟨"5_kaiser_stebbins_profile.py", true, true, false⟩,
  ⟨"6_sabueso_hydra_v6.py", true, true, true⟩,
  ⟨"6_sabueso_v7.py", true, true, false⟩,
  ⟨"6_sabueso_v8_final.py", true, true, true⟩,
  ⟨"6_twist_validator.py", false, true, false⟩,
  ⟨"7_stacking_ritual.py", true, true, false⟩,
  ⟨"8_sabueso_all.py", true, true, false⟩,
  ⟨"8_sabueso_v10.py", true, true, true⟩,
  ⟨"9_dodecaedro_final.py", false, true, false⟩,
  ⟨"9_full_dodecahedron_map.py", true, true, true⟩,
  ⟨"9_viz_global_mosaic.py", false, true, false⟩]

/-- The scripts that emit neither a plot nor a CSV: they only print to the
console (and `20_holographic_entropy.py` additionally writes a plain text
file, which is neither a plot nor a CSV). -/
def print_only_scripts : List String := [
  "2_check_coords.py",
  "4_calc_sigma_significance.py",
  "10_cosmic_gps_locator.py",
  "12_monte_carlo_sigma_test.py",
  "19_casimir_dark_energy.py",
  "20_holographic_entropy.py",
  "21_euler_topology_check.py"]

end ScriptsIO


/-- Test fixture: the all-zero interpretation of the numpy primitives. -/
def zeroTrig : TrigOps :=
  ⟨fun _ => 0, fun _ => 0, fun _ => 0, fun _ _ => 0, fun _ => 0, fun _ => 0,
   fun _ _ _ => 0, fun _ => false, 0⟩

/-- Test fixture: the all-zero sky map. -/
def zeroMap : ℕ → ℚ := fun _ => 0

/-- Test fixture: a walker state in the autopilot branch (the probed signal
0 is not below the threshold -1). -/
def walkState : SabuesoV8.SpiderState := ⟨0, 0, 0, -1, 0, 7, 0, []⟩

/-- Test fixture: a walker state in the radar branch (signal 0 is below the
threshold 1 and 21 steps were taken) with 4 vertices already found, so the
iteration records the 5th vertex and breaks. -/
def turnState : SabuesoV8.SpiderState := ⟨0, 0, 0, 1, 21, 7, 4, []⟩


/-- Test fixture: the all-zero interpretation of the statistics primitives. -/
def zeroStat : MainFractal.StatOps :=
  ⟨fun _ => 0, fun _ => 0, fun _ => 0, fun _ => 0, fun _ _ => 0⟩

/-- Test fixture: a first ring task. -/
def task0 : MainFractal.RingTask := (0, 0, 0, 0, [])

/-- Test fixture: a second ring task. -/
def task1 : MainFractal.RingTask := (1, 0, 0, 0, [])

/-- Test fixture: the disc query returning no pixels. -/
def emptyDisc : ℕ → ℚ × ℚ × ℚ → ℚ → Finset ℕ := fun _ _ _ => ∅

/-! ## Theorems -/

namespace SabuesoV8

theorem skipFold_spec (p : ℚ → Prop) [DecidablePred p] (f : ℚ → ℚ)
    (l : List ℚ) :
    ∀ b m : ℚ,
      (skipFold p f l (b, m) = (b, m) ∨
        ((skipFold p f l (b, m)).1 ∈ l ∧ ¬ p (skipFold p f l (b, m)).1 ∧
          (skipFold p f l (b, m)).2 = f (skipFold p f l (b, m)).1)) ∧
      m ≤ (skipFold p f l (b, m)).2 ∧
      ∀ a ∈ l, ¬ p a → f a ≤ (skipFold p f l (b, m)).2 := by
  induction l with
  | nil =>
    intro b m
    refine ⟨Or.inl rfl, le_refl m, ?_⟩
    intro a ha
    cases ha
  | cons x xs ih =>
    intro b m
    by_cases hpx : p x
    · have hfold : skipFold p f (x :: xs) (b, m) = skipFold p f xs (b, m) := by
        simp [skipFold, hpx]
      obtain ⟨hd, hm, hall⟩ := ih b m
      rw [hfold]
      refine ⟨?_, hm, ?_⟩
      · rcases hd with hd | ⟨h1, h2, h3⟩
        · exact Or.inl hd
        · exact Or.inr ⟨List.mem_cons_of_mem x h1, h2, h3⟩
      · intro a ha hpa
        rcases List.mem_cons.mp ha with rfl | ha
        · exact absurd hpx hpa
        · exact hall a ha hpa
    · by_cases hlt : m < f x
      · have hfold : skipFold p f (x :: xs) (b, m) = skipFold p f xs (x, f x) := by
          simp [skipFold, hpx, hlt]
        obtain ⟨hd, hm, hall⟩ := ih x (f x)
        rw [hfold]
        refine ⟨?_, le_trans (le_of_lt hlt) hm, ?_⟩
        · rcases hd with hd | ⟨h1, h2, h3⟩
          · rw [hd]
            exact Or.inr ⟨List.mem_cons_self x xs, hpx, rfl⟩
          · exact Or.inr ⟨List.mem_cons_of_mem x h1, h2, h3⟩
        · intro a ha hpa
          rcases List.mem_cons.mp ha with rfl | ha
          · exact hm
          · exact hall a ha hpa
      · have hfold : skipFold p f (x :: xs) (b, m) = skipFold p f xs (b, m) := by
          simp [skipFold, hpx, hlt]
        obtain ⟨hd, hm, hall⟩ := ih b m
        rw [hfold]
        refine ⟨?_, hm, ?_⟩
        · rcases hd with hd | ⟨h1, h2, h3⟩
          · exact Or.inl hd
          · exact Or.inr ⟨List.mem_cons_of_mem x h1, h2, h3⟩
        · intro a ha hpa
          rcases List.mem_cons.mp ha with rfl | ha
          · exact le_trans (not_lt.mp hlt) hm
          · exact hall a ha hpa

theorem pickFold_spec (f : ℚ → ℚ) (l : List ℚ) :
    ∀ b m : ℚ,
      (pickFold f l (b, m) = (b, m) ∨
        ((pickFold f l (b, m)).1 ∈ l ∧
          (pickFold f l (b, m)).2 = f (pickFold f l (b, m)).1)) ∧
      m ≤ (pickFold f l (b, m)).2 ∧
      ∀ a ∈ l, f a ≤ (pickFold f l (b, m)).2 := by
  induction l with
  | nil =>
    intro b m
    refine ⟨Or.inl rfl, le_refl m, ?_⟩
    intro a ha
    cases ha
  | cons x xs ih =>
    intro b m
    by_cases hlt : m < f x
    · have hfold : pickFold f (x :: xs) (b, m) = pickFold f xs (x, f x) := by
        simp [pickFold, hlt]
      obtain ⟨hd, hm, hall⟩ := ih x (f x)
      rw [hfold]
      refine ⟨?_, le_trans (le_of_lt hlt) hm, ?_⟩
      · rcases hd with hd | ⟨h1, h3⟩
        · rw [hd]
          exact Or.inr ⟨List.mem_cons_self x xs, rfl⟩
        · exact Or.inr ⟨List.mem_cons_of_mem x h1, h3⟩
      · intro a ha
        rcases List.mem_cons.mp ha with rfl | ha
        · exact hm
        · exact hall a ha
    · have hfold : pickFold f (x :: xs) (b, m) = pickFold f xs (b, m) := by
        simp [pickFold, hlt]
      obtain ⟨hd, hm, hall⟩ := ih b m
      rw [hfold]
      refine ⟨?_, hm, ?_⟩
      · rcases hd with hd | ⟨h1, h3⟩
        · exact Or.inl hd
        · exact Or.inr ⟨List.mem_cons_of_mem x h1, h3⟩
      · intro a ha
        rcases List.mem_cons.mp ha with rfl | ha
        · exact le_trans (not_lt.mp hlt) hm
        · exact hall a ha

end SabuesoV8

/-- C2: the helpers copy-pasted between `6_sabueso_v8_final.py`,
`17_sabueso_v9_correction_proof.py` and `19_cosmic_ruler.py` define the same
functions: on every input (and every interpretation of the underlying
numpy/healpy primitives), the three `move` definitions return equal results,
and the two `get_signal_at` definitions return equal results. -/
theorem C2_copied_helpers_agree :
    (∀ (t : TrigOps) (lat lon angle step_deg : ℚ),
        SabuesoV8.move t lat lon angle step_deg =
            SabuesoV9.move t lat lon angle step_deg ∧
        SabuesoV8.move t lat lon angle step_deg =
            CosmicRuler.move t lat lon angle step_deg) ∧
    (∀ (t : TrigOps) (lat lon angle : ℚ) (map_I map_P : ℕ → ℚ) (nside : ℕ),
        SabuesoV8.get_signal_at t lat lon angle map_I map_P nside =
          SabuesoV9.get_signal_at t lat lon angle map_I map_P nside) :=
  ⟨fun _ _ _ _ _ => ⟨rfl, rfl⟩, fun _ _ _ _ _ _ _ => rfl⟩

namespace SabuesoV8

theorem pymod_nonneg (x : ℚ) : 0 ≤ pymod x 360 := by
  have h := Int.floor_le (x / 360)
  have hm : (360:ℚ) * (⌊x / 360⌋ : ℚ) ≤ 360 * (x / 360) :=
    mul_le_mul_of_nonneg_left h (by norm_num)
  have hx : (360:ℚ) * (x / 360) = x := by field_simp
  unfold pymod
  linarith

theorem pymod_lt (x : ℚ) : pymod x 360 < 360 := by
  have h := Int.lt_floor_add_one (x / 360)
  have hm : (360:ℚ) * (x / 360) < 360 * ((⌊x / 360⌋ : ℚ) + 1) :=
    mul_lt_mul_of_pos_left h (by norm_num)
  have hx : (360:ℚ) * (x / 360) = x := by field_simp
  unfold pymod
  nlinarith

theorem pymod_add_int (x : ℚ) (k : ℤ) :
    pymod (x + 360 * k) 360 = pymod x 360 := by
  unfold pymod
  have hdiv : (x + 360 * k) / 360 = x / 360 + k := by
    field_simp
    ring
  rw [hdiv, Int.floor_add_int]
  push_cast
  ring

theorem pymod_eq_self (x : ℚ) (h0 : 0 ≤ x) (h1 : x < 360) : pymod x 360 = x := by
  unfold pymod
  have hf : ⌊x / 360⌋ = 0 := by
    rw [Int.floor_eq_zero_iff, Set.mem_Ico]
    constructor
    · positivity
    · rw [div_lt_one (by norm_num)]
      exact h1
  rw [hf]
  simp

theorem pymod_neg180 : pymod (-180) 360 = 180 := by
  have hf : ⌊(-180:ℚ) / 360⌋ = -1 := by
    rw [Int.floor_eq_iff]
    norm_num
  unfold pymod
  rw [hf]
  norm_num

theorem wrapDiff_eq_min (e : ℚ) : wrapDiff e = min e (360 - e) := by
  unfold wrapDiff
  split_ifs with h
  · rw [min_eq_right]
    linarith
  · rw [min_eq_left]
    linarith

theorem circDist_eq_wrapDiff (a b : ℚ) (h : |a - b| < 360) :
    circDist a b = wrapDiff |a - b| := by
  unfold circDist
  rcases le_or_lt b a with hab | hab
  · have habs : |a - b| = a - b := abs_of_nonneg (by linarith)
    have h1 : a - b < 360 := by rw [habs] at h; exact h
    rw [pymod_eq_self (a - b) (by linarith) h1, habs, wrapDiff_eq_min (a - b)]
  · have habs : |a - b| = b - a := by
      rw [abs_of_nonpos (by linarith)]
      ring
    have h1 : b - a < 360 := by rw [habs] at h; exact h
    have hshift : pymod (a - b) 360 = 360 - (b - a) := by
      have h2 := pymod_add_int (a - b) 1
      have h3 : a - b + 360 * (1:ℤ) = 360 - (b - a) := by push_cast; ring
      rw [h3] at h2
      rw [← h2, pymod_eq_self (360 - (b - a)) (by linarith) (by linarith)]
    rw [hshift, habs, wrapDiff_eq_min (b - a)]
    rw [min_comm]
    congr 1
    ring

theorem circDist_self_reverse (bearing : ℚ) :
    circDist bearing (pymod (bearing + 180) 360) = 180 := by
  unfold circDist
  have hkey : pymod (bearing - pymod (bearing + 180) 360) 360 = 180 := by
    have h1 : bearing - pymod (bearing + 180) 360 =
        -180 + 360 * (⌊(bearing + 180) / 360⌋ : ℤ) := by
      unfold pymod
      ring
    rw [h1, pymod_add_int, pymod_neg180]
  rw [hkey]
  norm_num

theorem scan_angles_bound : ∀ a ∈ scan_angles, 0 ≤ a ∧ a ≤ 355 := by decide

theorem exists_scan_keep (r : ℚ) (h0 : 0 ≤ r) (h1 : r < 360) :
    ∃ ang ∈ scan_angles, ¬ wrapDiff |ang - r| < 45 := by
  rcases le_or_lt r 90 with hr | hr
  · refine ⟨180, by decide, ?_⟩
    have habs : |(180:ℚ) - r| = 180 - r := abs_of_nonneg (by linarith)
    rw [habs]
    unfold wrapDiff
    split_ifs with h
    · exfalso; linarith
    · intro hc; linarith
  · rcases lt_or_le r 270 with hr2 | hr2
    · refine ⟨0, by decide, ?_⟩
      have habs : |(0:ℚ) - r| = r := by
        rw [abs_of_nonpos (by linarith)]
        ring
      rw [habs]
      unfold wrapDiff
      split_ifs with h
      · intro hc; linarith
      · intro hc; linarith
    · refine ⟨180, by decide, ?_⟩
      have habs : |(180:ℚ) - r| = r - 180 := by
        rw [abs_of_nonpos (by linarith)]
        ring
      rw [habs]
      unfold wrapDiff
      split_ifs with h
      · exfalso; linarith
      · intro hc; linarith

theorem get_signal_at_nonneg (t : TrigOps) (lat lon angle : ℚ)
    (map_I map_P : ℕ → ℚ) (nside : ℕ) :
    0 ≤ get_signal_at t lat lon angle map_I map_P nside :=
  abs_nonneg _

theorem weightedScanSig_nonneg (t : TrigOps) (map_I map_P : ℕ → ℚ) (nside : ℕ)
    (lat lon bearing ang : ℚ) :
    0 ≤ weightedScanSig t map_I map_P nside lat lon bearing ang := by
  unfold weightedScanSig
  dsimp only
  split_ifs with h
  · exact mul_nonneg (get_signal_at_nonneg t lat lon ang map_I map_P nside) (by norm_num)
  · exact get_signal_at_nonneg t lat lon ang map_I map_P nside

theorem radarScan_spec (t : TrigOps) (map_I map_P : ℕ → ℚ) (nside : ℕ)
    (lat lon bearing : ℚ) :
    ((radarScan t map_I map_P nside lat lon bearing).1 ∈ scan_angles ∧
      ¬ wrapDiff |(radarScan t map_I map_P nside lat lon bearing).1 -
          pymod (bearing + 180) 360| < 45 ∧
      (radarScan t map_I map_P nside lat lon bearing).2 =
        weightedScanSig t map_I map_P nside lat lon bearing
          (radarScan t map_I map_P nside lat lon bearing).1) ∧
    ∀ a ∈ scan_angles, ¬ wrapDiff |a - pymod (bearing + 180) 360| < 45 →
      weightedScanSig t map_I map_P nside lat lon bearing a ≤
        (radarScan t map_I map_P nside lat lon bearing).2 := by
  obtain ⟨hd, hm, hall⟩ :=
    skipFold_spec (fun ang => wrapDiff |ang - pymod (bearing + 180) 360| < 45)
      (weightedScanSig t map_I map_P nside lat lon bearing) scan_angles bearing (-1)
  have hrs : radarScan t map_I map_P nside lat lon bearing =
      skipFold (fun ang => wrapDiff |ang - pymod (bearing + 180) 360| < 45)
        (weightedScanSig t map_I map_P nside lat lon bearing) scan_angles
        (bearing, -1) := rfl
  rw [hrs]
  rcases hd with hd | ⟨h1, h2, h3⟩
  · exfalso
    obtain ⟨a0, ha0, hk⟩ := exists_scan_keep (pymod (bearing + 180) 360)
      (pymod_nonneg _) (pymod_lt _)
    have hle := hall a0 ha0 hk
    rw [hd] at hle
    have hnn := weightedScanSig_nonneg t map_I map_P nside lat lon bearing a0
    simp only at hle
    linarith
  · exact ⟨⟨h1, h2, h3⟩, hall⟩

theorem walkScan_spec (t : TrigOps) (map_I map_P : ℕ → ℚ) (nside : ℕ)
    (lat lon bearing : ℚ) :
    ((walkScan t map_I map_P nside lat lon bearing).1 ∈ adj_candidates ∧
      (walkScan t map_I map_P nside lat lon bearing).2 =
        get_signal_at t lat lon
          (bearing + (walkScan t map_I map_P nside lat lon bearing).1)
          map_I map_P nside) ∧
    ∀ a ∈ adj_candidates,
      get_signal_at t lat lon (bearing + a) map_I map_P nside ≤
        (walkScan t map_I map_P nside lat lon bearing).2 := by
  obtain ⟨hd, hm, hall⟩ :=
    pickFold_spec (fun adj => get_signal_at t lat lon (bearing + adj) map_I map_P nside)
      adj_candidates 0 (-1)
  have hrs : walkScan t map_I map_P nside lat lon bearing =
      pickFold (fun adj => get_signal_at t lat lon (bearing + adj) map_I map_P nside)
        adj_candidates (0, -1) := rfl
  rw [hrs]
  rcases hd with hd | ⟨h1, h3⟩
  · exfalso
    have hmem : (-8:ℚ) ∈ adj_candidates := by decide
    have hle := hall (-8) hmem
    rw [hd] at hle
    have hnn := get_signal_at_nonneg t lat lon (bearing + -8) map_I map_P nside
    simp only at hle
    linarith
  · exact ⟨⟨h1, h3⟩, hall⟩

end SabuesoV8

/-- C4: on every iteration of the `run_spider_v8` main loop the walker acts
greedily on the probed signal field. If the signal ahead is below the current
threshold and more than 20 steps were taken on the current edge, it records a
vertex, sets its bearing to a scan angle (a multiple of 5 degrees) passing
the 45-degree exclusion filter around the reverse bearing and of maximal
weighted signal (where `weightedScanSig` applies the 1.2 bonus to turn
angles strictly between 60 and 85 degrees) among all such angles, and resets
the threshold to 45 percent of that maximal weighted signal. Otherwise it
adds to its bearing the adjustment from `[-8, -4, 0, 4, 8]` of maximal
probed signal, moves one step of 0.2 degrees along the adjusted bearing and
appends the new position to the path. -/
theorem C4_spider_greedy_step (t : TrigOps) (map_I map_P : ℕ → ℚ) (nside : ℕ)
    (s : SabuesoV8.SpiderState) :
    (SabuesoV8.get_signal_at t s.lat s.lon s.bearing map_I map_P nside <
          s.threshold ∧ 20 < s.stepsOnEdge →
      (SabuesoV8.spiderIter t map_I map_P nside s).1.path =
          s.path ++ [⟨s.lat, s.lon, SabuesoV8.PointType.vertexFound⟩] ∧
      (SabuesoV8.spiderIter t map_I map_P nside s).1.verticesFound =
          s.verticesFound + 1 ∧
      (SabuesoV8.spiderIter t map_I map_P nside s).1.stepsOnEdge = 0 ∧
      (SabuesoV8.spiderIter t map_I map_P nside s).1.bearing ∈
          SabuesoV8.scan_angles ∧
      ¬ SabuesoV8.wrapDiff |(SabuesoV8.spiderIter t map_I map_P nside s).1.bearing -
          SabuesoV8.pymod (s.bearing + 180) 360| < 45 ∧
      (∀ a ∈ SabuesoV8.scan_angles,
        ¬ SabuesoV8.wrapDiff |a - SabuesoV8.pymod (s.bearing + 180) 360| < 45 →
          SabuesoV8.weightedScanSig t map_I map_P nside s.lat s.lon s.bearing a ≤
            SabuesoV8.weightedScanSig t map_I map_P nside s.lat s.lon s.bearing
              (SabuesoV8.spiderIter t map_I map_P nside s).1.bearing) ∧
      (SabuesoV8.spiderIter t map_I map_P nside s).1.threshold =
        SabuesoV8.weightedScanSig t map_I map_P nside s.lat s.lon s.bearing
          (SabuesoV8.spiderIter t map_I map_P nside s).1.bearing * 0.45) ∧
    (¬ (SabuesoV8.get_signal_at t s.lat s.lon s.bearing map_I map_P nside <
          s.threshold ∧ 20 < s.stepsOnEdge) →
      ∃ adj ∈ SabuesoV8.adj_candidates,
        (SabuesoV8.spiderIter t map_I map_P nside s).1.bearing = s.bearing + adj ∧
        (∀ a ∈ SabuesoV8.adj_candidates,
          SabuesoV8.get_signal_at t s.lat s.lon (s.bearing + a) map_I map_P nside ≤
            SabuesoV8.get_signal_at t s.lat s.lon (s.bearing + adj) map_I map_P nside) ∧
        ((SabuesoV8.spiderIter t map_I map_P nside s).1.lat,
          (SabuesoV8.spiderIter t map_I map_P nside s).1.lon) =
          SabuesoV8.move t s.lat s.lon (s.bearing + adj) SabuesoV8.STEP_SIZE ∧
        (SabuesoV8.spiderIter t map_I map_P nside s).1.stepsOnEdge =
          s.stepsOnEdge + 1 ∧
        (SabuesoV8.spiderIter t map_I map_P nside s).1.totalSteps =
          s.totalSteps + 1 ∧
        (SabuesoV8.spiderIter t map_I map_P nside s).1.path =
          s.path ++ [⟨(SabuesoV8.spiderIter t map_I map_P nside s).1.lat,
            (SabuesoV8.spiderIter t map_I map_P nside s).1.lon,
            SabuesoV8.PointType.pathPoint⟩]) := by
  constructor
  · intro h
    obtain ⟨⟨hmem, hkeep, heq⟩, hmax⟩ :=
      SabuesoV8.radarScan_spec t map_I map_P nside s.lat s.lon s.bearing
    have hb : (SabuesoV8.spiderIter t map_I map_P nside s).1.bearing =
        (SabuesoV8.radarScan t map_I map_P nside s.lat s.lon s.bearing).1 := by
      simp only [SabuesoV8.spiderIter, if_pos h]
      split_ifs <;> rfl
    have hth : (SabuesoV8.spiderIter t map_I map_P nside s).1.threshold =
        (SabuesoV8.radarScan t map_I map_P nside s.lat s.lon s.bearing).2 * 0.45 := by
      simp only [SabuesoV8.spiderIter, if_pos h]
      split_ifs <;> rfl
    have hpath : (SabuesoV8.spiderIter t map_I map_P nside s).1.path =
        s.path ++ [⟨s.lat, s.lon, SabuesoV8.PointType.vertexFound⟩] := by
      simp only [SabuesoV8.spiderIter, if_pos h]
      split_ifs <;> rfl
    have hvf2 : (SabuesoV8.spiderIter t map_I map_P nside s).1.verticesFound =
        s.verticesFound + 1 := by
      simp only [SabuesoV8.spiderIter, if_pos h]
      split_ifs <;> rfl
    have hsoe : (SabuesoV8.spiderIter t map_I map_P nside s).1.stepsOnEdge = 0 := by
      simp only [SabuesoV8.spiderIter, if_pos h]
      split_ifs <;> rfl
    rw [hpath, hvf2, hsoe, hb, hth]
    exact ⟨rfl, rfl, rfl, hmem, hkeep, fun a ha hk => heq ▸ hmax a ha hk,
      by rw [heq]⟩
  · intro h
    obtain ⟨⟨hmem, heq⟩, hmax⟩ :=
      SabuesoV8.walkScan_spec t map_I map_P nside s.lat s.lon s.bearing
    have hb : (SabuesoV8.spiderIter t map_I map_P nside s).1.bearing =
        s.bearing + (SabuesoV8.walkScan t map_I map_P nside s.lat s.lon s.bearing).1 := by
      simp only [SabuesoV8.spiderIter, if_neg h]
    have hlat : (SabuesoV8.spiderIter t map_I map_P nside s).1.lat =
        (SabuesoV8.move t s.lat s.lon
          (s.bearing + (SabuesoV8.walkScan t map_I map_P nside s.lat s.lon s.bearing).1)
          SabuesoV8.STEP_SIZE).1 := by
      simp only [SabuesoV8.spiderIter, if_neg h]
    have hlon : (SabuesoV8.spiderIter t map_I map_P nside s).1.lon =
        (SabuesoV8.move t s.lat s.lon
          (s.bearing + (SabuesoV8.walkScan t map_I map_P nside s.lat s.lon s.bearing).1)
          SabuesoV8.STEP_SIZE).2 := by
      simp only [SabuesoV8.spiderIter, if_neg h]
    have hsoe : (SabuesoV8.spiderIter t map_I map_P nside s).1.stepsOnEdge =
        s.stepsOnEdge + 1 := by
      simp only [SabuesoV8.spiderIter, if_neg h]
    have hts : (SabuesoV8.spiderIter t map_I map_P nside s).1.totalSteps =
        s.totalSteps + 1 := by
      simp only [SabuesoV8.spiderIter, if_neg h]
    have hpath : (SabuesoV8.spiderIter t map_I map_P nside s).1.path =
        s.path ++ [⟨(SabuesoV8.move t s.lat s.lon
            (s.bearing + (SabuesoV8.walkScan t map_I map_P nside s.lat s.lon s.bearing).1)
            SabuesoV8.STEP_SIZE).1,
          (SabuesoV8.move t s.lat s.lon
            (s.bearing + (SabuesoV8.walkScan t map_I map_P nside s.lat s.lon s.bearing).1)
            SabuesoV8.STEP_SIZE).2, SabuesoV8.PointType.pathPoint⟩] := by
      simp only [SabuesoV8.spiderIter, if_neg h]
    refine ⟨(SabuesoV8.walkScan t map_I map_P nside s.lat s.lon s.bearing).1,
      hmem, hb, ?_, ?_, hsoe, hts, ?_⟩
    · intro a ha
      exact heq ▸ hmax a ha
    · rw [hlat, hlon]
    · rw [hpath, hlat, hlon]

/-- Witness for C4: at the all-zero signal field and a state in the
autopilot branch, the hypotheses of `C4_spider_greedy_step` are discharged
concretely. -/
theorem C4_spider_greedy_step_witness :
    (¬ (SabuesoV8.get_signal_at zeroTrig walkState.lat walkState.lon
          walkState.bearing zeroMap zeroMap 8 < walkState.threshold ∧
        20 < walkState.stepsOnEdge)) ∧
    (∃ adj ∈ SabuesoV8.adj_candidates,
      (SabuesoV8.spiderIter zeroTrig zeroMap zeroMap 8 walkState).1.bearing =
        walkState.bearing + adj ∧
      (∀ a ∈ SabuesoV8.adj_candidates,
        SabuesoV8.get_signal_at zeroTrig walkState.lat walkState.lon
            (walkState.bearing + a) zeroMap zeroMap 8 ≤
          SabuesoV8.get_signal_at zeroTrig walkState.lat walkState.lon
            (walkState.bearing + adj) zeroMap zeroMap 8) ∧
      ((SabuesoV8.spiderIter zeroTrig zeroMap zeroMap 8 walkState).1.lat,
        (SabuesoV8.spiderIter zeroTrig zeroMap zeroMap 8 walkState).1.lon) =
        SabuesoV8.move zeroTrig walkState.lat walkState.lon
          (walkState.bearing + adj) SabuesoV8.STEP_SIZE ∧
      (SabuesoV8.spiderIter zeroTrig zeroMap zeroMap 8 walkState).1.stepsOnEdge =
        walkState.stepsOnEdge + 1 ∧
      (SabuesoV8.spiderIter zeroTrig zeroMap zeroMap 8 walkState).1.totalSteps =
        walkState.totalSteps + 1 ∧
      (SabuesoV8.spiderIter zeroTrig zeroMap zeroMap 8 walkState).1.path =
        walkState.path ++
          [⟨(SabuesoV8.spiderIter zeroTrig zeroMap zeroMap 8 walkState).1.lat,
            (SabuesoV8.spiderIter zeroTrig zeroMap zeroMap 8 walkState).1.lon,
            SabuesoV8.PointType.pathPoint⟩]) := by
  have h0 : SabuesoV8.get_signal_at zeroTrig walkState.lat walkState.lon
      walkState.bearing zeroMap zeroMap 8 = 0 := by
    simp [SabuesoV8.get_signal_at, zeroTrig, zeroMap]
  have hcond : ¬ (SabuesoV8.get_signal_at zeroTrig walkState.lat walkState.lon
      walkState.bearing zeroMap zeroMap 8 < walkState.threshold ∧
      20 < walkState.stepsOnEdge) := by
    rw [h0]
    rintro ⟨hlt, -⟩
    norm_num [walkState] at hlt
  exact ⟨hcond, (C4_spider_greedy_step zeroTrig zeroMap zeroMap 8 walkState).2 hcond⟩

/-- C9: on every radar turn of `run_spider_v8` (the branch taken when the
signal ahead is below the threshold after more than 20 steps), the bearing
adopted after the turn is at least 45 degrees of circular distance away from
the reverse `(pre-turn bearing + 180) % 360` of the pre-turn bearing, for
all map contents. -/
theorem C9_no_reverse_turn (t : TrigOps) (map_I map_P : ℕ → ℚ) (nside : ℕ)
    (s : SabuesoV8.SpiderState)
    (h1 : SabuesoV8.get_signal_at t s.lat s.lon s.bearing map_I map_P nside <
      s.threshold)
    (h2 : 20 < s.stepsOnEdge) :
    45 ≤ SabuesoV8.circDist (SabuesoV8.spiderIter t map_I map_P nside s).1.bearing
      (SabuesoV8.pymod (s.bearing + 180) 360) := by
  have hcond : SabuesoV8.get_signal_at t s.lat s.lon s.bearing map_I map_P nside <
      s.threshold ∧ 20 < s.stepsOnEdge := ⟨h1, h2⟩
  have hbear : (SabuesoV8.spiderIter t map_I map_P nside s).1.bearing =
      (SabuesoV8.radarScan t map_I map_P nside s.lat s.lon s.bearing).1 := by
    simp only [SabuesoV8.spiderIter, if_pos hcond]
    split_ifs <;> rfl
  obtain ⟨⟨hmem, hkeep, _⟩, _⟩ :=
    SabuesoV8.radarScan_spec t map_I map_P nside s.lat s.lon s.bearing
  rw [hbear]
  obtain ⟨ha0, ha355⟩ := SabuesoV8.scan_angles_bound _ hmem
  have hrv0 := SabuesoV8.pymod_nonneg (s.bearing + 180)
  have hrv1 := SabuesoV8.pymod_lt (s.bearing + 180)
  have habs : |(SabuesoV8.radarScan t map_I map_P nside s.lat s.lon s.bearing).1 -
      SabuesoV8.pymod (s.bearing + 180) 360| < 360 := by
    rw [abs_lt]
    constructor <;> linarith
  rw [SabuesoV8.circDist_eq_wrapDiff _ _ habs]
  exact not_lt.mp hkeep

/-- Witness for C9: at the all-zero signal field and a state in the radar
branch the hypotheses of `C9_no_reverse_turn` are discharged concretely. -/
theorem C9_no_reverse_turn_witness :
    SabuesoV8.get_signal_at zeroTrig turnState.lat turnState.lon
        turnState.bearing zeroMap zeroMap 8 < turnState.threshold ∧
    20 < turnState.stepsOnEdge ∧
    45 ≤ SabuesoV8.circDist
      (SabuesoV8.spiderIter zeroTrig zeroMap zeroMap 8 turnState).1.bearing
      (SabuesoV8.pymod (turnState.bearing + 180) 360) := by
  have h0 : SabuesoV8.get_signal_at zeroTrig turnState.lat turnState.lon
      turnState.bearing zeroMap zeroMap 8 = 0 := by
    simp [SabuesoV8.get_signal_at, zeroTrig, zeroMap]
  have h1 : SabuesoV8.get_signal_at zeroTrig turnState.lat turnState.lon
      turnState.bearing zeroMap zeroMap 8 < turnState.threshold := by
    rw [h0]
    norm_num [turnState]
  have h2 : 20 < turnState.stepsOnEdge := by norm_num [turnState]
  exact ⟨h1, h2, C9_no_reverse_turn zeroTrig zeroMap zeroMap 8 turnState h1 h2⟩

namespace SabuesoV8

theorem spiderIter_totalSteps_false (t : TrigOps) (map_I map_P : ℕ → ℚ)
    (nside : ℕ) (s : SpiderState)
    (hb : (spiderIter t map_I map_P nside s).2 = false) :
    (spiderIter t map_I map_P nside s).1.totalSteps = s.totalSteps + 1 := by
  simp only [spiderIter] at hb ⊢
  split_ifs at hb ⊢ with h1 h2 <;> rfl

theorem spiderIter_break_facts (t : TrigOps) (map_I map_P : ℕ → ℚ)
    (nside : ℕ) (s : SpiderState)
    (hb : (spiderIter t map_I map_P nside s).2 = true) :
    (spiderIter t map_I map_P nside s).1.totalSteps = s.totalSteps ∧
    5 ≤ (spiderIter t map_I map_P nside s).1.verticesFound := by
  simp only [spiderIter] at hb ⊢
  split_ifs at hb ⊢ with h1 h2
  exact ⟨rfl, h2⟩

theorem spiderLoop_count (t : TrigOps) (map_I map_P : ℕ → ℚ) (nside : ℕ) :
    ∀ n (s : SpiderState), MAX_STEPS - s.totalSteps ≤ n →
      (spiderLoop t map_I map_P nside s).2 ≤ MAX_STEPS - s.totalSteps := by
  intro n
  induction n with
  | zero =>
    intro s hs
    have hg : ¬ s.totalSteps < MAX_STEPS := by omega
    rw [spiderLoop, dif_neg hg]
    exact Nat.zero_le _
  | succ n ih =>
    intro s hs
    rw [spiderLoop]
    by_cases hg : s.totalSteps < MAX_STEPS
    · rw [dif_pos hg]
      by_cases hb : (spiderIter t map_I map_P nside s).2
      · rw [dif_pos hb]
        show 1 ≤ MAX_STEPS - s.totalSteps
        omega
      · rw [dif_neg hb]
        have hstep := spiderIter_totalSteps_false t map_I map_P nside s
          (by simpa using hb)
        have hrec := ih (spiderIter t map_I map_P nside s).1 (by omega)
        show (spiderLoop t map_I map_P nside
          (spiderIter t map_I map_P nside s).1).2 + 1 ≤ MAX_STEPS - s.totalSteps
        omega
    · rw [dif_neg hg]
      exact Nat.zero_le _
  
theorem spiderLoop_exit (t : TrigOps) (map_I map_P : ℕ → ℚ) (nside : ℕ) :
    ∀ n (s : SpiderState), MAX_STEPS - s.totalSteps ≤ n →
      (spiderLoop t map_I map_P nside s).1.totalSteps < MAX_STEPS →
      5 ≤ (spiderLoop t map_I map_P nside s).1.verticesFound := by
  intro n
  induction n with
  | zero =>
    intro s hs
    have hg : ¬ s.totalSteps < MAX_STEPS := by omega
    rw [spiderLoop, dif_neg hg]
    intro hlt
    exact absurd hlt hg
  | succ n ih =>
    intro s hs
    rw [spiderLoop]
    by_cases hg : s.totalSteps < MAX_STEPS
    · rw [dif_pos hg]
      by_cases hb : (spiderIter t map_I map_P nside s).2
      · rw [dif_pos hb]
        intro _
        exact (spiderIter_break_facts t map_I map_P nside s (by simpa using hb)).2
      · rw [dif_neg hb]
        have hstep := spiderIter_totalSteps_false t map_I map_P nside s
          (by simpa using hb)
        exact ih (spiderIter t map_I map_P nside s).1 (by omega)
    · rw [dif_neg hg]
      intro hlt
      exact absurd hlt hg

end SabuesoV8

/-- C8 counterexample: the claim says `total_steps` increases by exactly 1 on
every iteration, but on the breaking iteration (when the 5th vertex is
found) `break` skips the final `total_steps += 1`, so `total_steps` stays
unchanged: at the all-zero signal field and the concrete radar-branch state
`turnState` with 4 vertices already found, the iteration breaks and
`totalSteps` is not incremented. -/
theorem C8_counterexample :
    (SabuesoV8.spiderIter zeroTrig zeroMap zeroMap 8 turnState).2 = true ∧
    (SabuesoV8.spiderIter zeroTrig zeroMap zeroMap 8 turnState).1.totalSteps ≠
      turnState.totalSteps + 1 := by
  have h0 : SabuesoV8.get_signal_at zeroTrig turnState.lat turnState.lon
      turnState.bearing zeroMap zeroMap 8 = 0 := by
    simp [SabuesoV8.get_signal_at, zeroTrig, zeroMap]
  have hcond : SabuesoV8.get_signal_at zeroTrig turnState.lat turnState.lon
      turnState.bearing zeroMap zeroMap 8 < turnState.threshold ∧
      20 < turnState.stepsOnEdge := by
    constructor
    · rw [h0]
      norm_num [turnState]
    · norm_num [turnState]
  have hvf : 5 ≤ turnState.verticesFound + 1 := by norm_num [turnState]
  constructor
  · simp only [SabuesoV8.spiderIter, if_pos hcond]
    rw [if_pos hvf]
  · simp only [SabuesoV8.spiderIter, if_pos hcond]
    rw [if_pos hvf]
    dsimp only
    omega

/-- C8 (amended): the `run_spider_v8` main loop terminates after at most
`MAX_STEPS = 1500` iterations. `total_steps` increases by exactly 1 on every
iteration that does not break, the breaking iteration leaves it unchanged,
the loop guard is `total_steps < MAX_STEPS`, and the loop exits before the
guard fails only when 5 vertices have been found. -/
theorem C8_amended_termination (t : TrigOps) (map_I map_P : ℕ → ℚ)
    (nside : ℕ) (s : SabuesoV8.SpiderState) :
    ((SabuesoV8.spiderIter t map_I map_P nside s).2 = false →
      (SabuesoV8.spiderIter t map_I map_P nside s).1.totalSteps =
        s.totalSteps + 1) ∧
    ((SabuesoV8.spiderIter t map_I map_P nside s).2 = true →
      (SabuesoV8.spiderIter t map_I map_P nside s).1.totalSteps = s.totalSteps ∧
      5 ≤ (SabuesoV8.spiderIter t map_I map_P nside s).1.verticesFound) ∧
    (SabuesoV8.spiderLoop t map_I map_P nside s).2 ≤
      SabuesoV8.MAX_STEPS - s.totalSteps ∧
    ((SabuesoV8.spiderLoop t map_I map_P nside s).1.totalSteps <
        SabuesoV8.MAX_STEPS →
      5 ≤ (SabuesoV8.spiderLoop t map_I map_P nside s).1.verticesFound) :=
  ⟨SabuesoV8.spiderIter_totalSteps_false t map_I map_P nside s,
   SabuesoV8.spiderIter_break_facts t map_I map_P nside s,
   SabuesoV8.spiderLoop_count t map_I map_P nside
     (SabuesoV8.MAX_STEPS - s.totalSteps) s (le_refl _),
   SabuesoV8.spiderLoop_exit t map_I map_P nside
     (SabuesoV8.MAX_STEPS - s.totalSteps) s (le_refl _)⟩

/-- Witness for C8 (amended): at the all-zero signal field and the concrete
autopilot-branch state `walkState`, the non-breaking implication of
`C8_amended_termination` is discharged concretely. -/
theorem C8_amended_termination_witness :
    (SabuesoV8.spiderIter zeroTrig zeroMap zeroMap 8 walkState).2 = false ∧
    (SabuesoV8.spiderIter zeroTrig zeroMap zeroMap 8 walkState).1.totalSteps =
      walkState.totalSteps + 1 ∧
    (SabuesoV8.spiderLoop zeroTrig zeroMap zeroMap 8 walkState).2 ≤
      SabuesoV8.MAX_STEPS - walkState.totalSteps := by
  have h0 : SabuesoV8.get_signal_at zeroTrig walkState.lat walkState.lon
      walkState.bearing zeroMap zeroMap 8 = 0 := by
    simp [SabuesoV8.get_signal_at, zeroTrig, zeroMap]
  have hcond : ¬ (SabuesoV8.get_signal_at zeroTrig walkState.lat walkState.lon
      walkState.bearing zeroMap zeroMap 8 < walkState.threshold ∧
      20 < walkState.stepsOnEdge) := by
    rw [h0]
    rintro ⟨hlt, -⟩
    norm_num [walkState] at hlt
  have hb : (SabuesoV8.spiderIter zeroTrig zeroMap zeroMap 8 walkState).2 = false := by
    simp only [SabuesoV8.spiderIter, if_neg hcond]
  exact ⟨hb, (C8_amended_termination zeroTrig zeroMap zeroMap 8 walkState).1 hb,
    (C8_amended_termination zeroTrig zeroMap zeroMap 8 walkState).2.2.1⟩

/-- C3: for every array of length `N` with nonzero standard deviation (the
abstract square root `sqrtQ` satisfies the defining equations of `np.sqrt`
at the variance), every neighbor matrix of shape `(N, k)` and `W = N * k`,
`fast_moran` equals the textbook Moran's I with binary k-nearest-neighbour
weights `(N / W) * (Σ_i Σ_j (x_i - mean)(x_j - mean)) / (Σ_i (x_i - mean)^2)`. -/
theorem C3_fast_moran_eq_textbook (sqrtQ : ℚ → ℚ) (N k : ℕ)
    (values : Fin N → ℚ) (neighbor_indices : Fin N → Fin k → Fin N)
    (hN : 0 < N)
    (hsq : sqrtQ (CalcSigma.npMean N fun i =>
        (values i - CalcSigma.npMean N values) ^ 2) ^ 2 =
      CalcSigma.npMean N fun i => (values i - CalcSigma.npMean N values) ^ 2)
    (hstd : sqrtQ (CalcSigma.npMean N fun i =>
        (values i - CalcSigma.npMean N values) ^ 2) ≠ 0) :
    CalcSigma.fast_moran sqrtQ N k values neighbor_indices ((N : ℚ) * k) =
      CalcSigma.textbook_moran N k values neighbor_indices ((N : ℚ) * k) := by
  have hNQ : (N : ℚ) ≠ 0 := Nat.cast_ne_zero.mpr hN.ne'
  unfold CalcSigma.fast_moran CalcSigma.textbook_moran
  unfold CalcSigma.npMean at hsq hstd ⊢
  dsimp only
  set m := (∑ i, values i) / (N : ℚ) with hm
  set σ := sqrtQ ((∑ i, (values i - m) ^ 2) / (N : ℚ)) with hσdef
  dsimp only at hsq
  have hnum : (∑ i, (values i - m) / σ * (∑ j, (values (neighbor_indices i j) - m) / σ))
      = (∑ i, (values i - m) * (∑ j, (values (neighbor_indices i j) - m))) / σ ^ 2 := by
    rw [Finset.sum_div]
    refine Finset.sum_congr rfl fun i _ => ?_
    rw [← Finset.sum_div, div_mul_div_comm, ← pow_two]
  have hdouble : (∑ i, ∑ j, (values i - m) * (values (neighbor_indices i j) - m))
      = ∑ i, (values i - m) * (∑ j, (values (neighbor_indices i j) - m)) := by
    refine Finset.sum_congr rfl fun i _ => ?_
    rw [Finset.mul_sum]
  have hvar : (∑ i, (values i - m) ^ 2) = (N : ℚ) * σ ^ 2 := by
    rw [hsq]
    field_simp
  rw [hnum, hdouble, hvar]
  rcases Nat.eq_zero_or_pos k with hk | hk
  · subst hk
    simp
  · have hkQ : (k : ℚ) ≠ 0 := Nat.cast_ne_zero.mpr hk.ne'
    field_simp [hstd, hNQ, hkQ]
    ring

/-- C10: the Monte Carlo permutation p-value
`(n_higher + 1) / (N_SIMULATIONS + 1)` with `0 ≤ n_higher ≤ N_SIMULATIONS`
satisfies `0 < p_value ≤ 1` for every simulation outcome; in particular the
reported p-value is never exactly 0. -/
theorem C10_p_value_bounds (random_morans : Fin CalcSigma.N_SIMULATIONS → ℚ)
    (real_moran : ℚ) :
    0 < CalcSigma.p_value random_morans real_moran ∧
    CalcSigma.p_value random_morans real_moran ≤ 1 := by
  have hcard : CalcSigma.n_higher random_morans real_moran ≤
      CalcSigma.N_SIMULATIONS := by
    unfold CalcSigma.n_higher
    calc (Finset.univ.filter fun i => real_moran ≤ random_morans i).card
        ≤ Finset.univ.card := Finset.card_filter_le _ _
      _ = CalcSigma.N_SIMULATIONS := by rw [Finset.card_univ, Fintype.card_fin]
  unfold CalcSigma.p_value
  have hd : (0 : ℚ) < (CalcSigma.N_SIMULATIONS : ℚ) + 1 := by
    have h := Nat.cast_nonneg (α := ℚ) CalcSigma.N_SIMULATIONS
    linarith
  have hn : (0 : ℚ) < (CalcSigma.n_higher random_morans real_moran : ℚ) + 1 := by
    have h := Nat.cast_nonneg (α := ℚ) (CalcSigma.n_higher random_morans real_moran)
    linarith
  constructor
  · exact div_pos hn hd
  · rw [div_le_one hd]
    have hc : ((CalcSigma.n_higher random_morans real_moran : ℕ) : ℚ) ≤
        ((CalcSigma.N_SIMULATIONS : ℕ) : ℚ) := by exact_mod_cast hcard
    linarith

/-- Witness for C3: at `N = 2`, `k = 1`, `values = ![0, 2]`, the
self-neighbor matrix and the constant-one square root (which is correct at
the variance 1 of this data), the hypotheses of `C3_fast_moran_eq_textbook`
are discharged concretely. -/
theorem C3_fast_moran_eq_textbook_witness :
    (0 < 2) ∧
    ((fun _ : ℚ => (1 : ℚ)) (CalcSigma.npMean 2 fun i =>
        ((![0, 2] : Fin 2 → ℚ) i - CalcSigma.npMean 2 ![0, 2]) ^ 2) ^ 2 =
      CalcSigma.npMean 2 fun i =>
        ((![0, 2] : Fin 2 → ℚ) i - CalcSigma.npMean 2 ![0, 2]) ^ 2) ∧
    ((fun _ : ℚ => (1 : ℚ)) (CalcSigma.npMean 2 fun i =>
        ((![0, 2] : Fin 2 → ℚ) i - CalcSigma.npMean 2 ![0, 2]) ^ 2) ≠ 0) ∧
    CalcSigma.fast_moran (fun _ => 1) 2 1 ![0, 2] (fun i _ => i)
        (((2 : ℕ) : ℚ) * ((1 : ℕ) : ℚ)) =
      CalcSigma.textbook_moran 2 1 ![0, 2] (fun i _ => i)
        (((2 : ℕ) : ℚ) * ((1 : ℕ) : ℚ)) := by
  have h1 : (0 : ℕ) < 2 := by norm_num
  have h2 : (fun _ : ℚ => (1 : ℚ)) (CalcSigma.npMean 2 fun i =>
      ((![0, 2] : Fin 2 → ℚ) i - CalcSigma.npMean 2 ![0, 2]) ^ 2) ^ 2 =
      CalcSigma.npMean 2 fun i =>
        ((![0, 2] : Fin 2 → ℚ) i - CalcSigma.npMean 2 ![0, 2]) ^ 2 := by
    norm_num [CalcSigma.npMean, Fin.sum_univ_two]
  have h3 : (fun _ : ℚ => (1 : ℚ)) (CalcSigma.npMean 2 fun i =>
      ((![0, 2] : Fin 2 → ℚ) i - CalcSigma.npMean 2 ![0, 2]) ^ 2) ≠ 0 := by
    norm_num
  exact ⟨h1, h2, h3,
    C3_fast_moran_eq_textbook (fun _ => 1) 2 1 ![0, 2] (fun i _ => i) h1 h2 h3⟩

/-- C5: each result of `process_ring_memory_optimized` is a pure function of
its own task tuple and the read-only shared `I`, `Q`, `U` arrays installed by
`init_worker` (it is modelled as exactly such a function), so delivering the
task results through `pool.imap_unordered` in any order (any permutation of
the task list) and dropping falsy results yields the same multiset of ring
records as processing the tasks sequentially. -/
theorem C5_pool_permutation (ops : MainFractal.StatOps)
    (shared_I shared_Q shared_U : ℕ → ℚ)
    (tasks delivery : List MainFractal.RingTask)
    (hperm : tasks.Perm delivery) :
    (MainFractal.pool_results
        (MainFractal.process_ring_memory_optimized ops shared_I shared_Q shared_U)
        delivery).Perm
      (MainFractal.pool_results
        (MainFractal.process_ring_memory_optimized ops shared_I shared_Q shared_U)
        tasks) :=
  (hperm.filterMap _).symm

/-- Witness for C5: a two-task list delivered in swapped order. -/
theorem C5_pool_permutation_witness :
    ([task0, task1].Perm [task1, task0]) ∧
    (MainFractal.pool_results
        (MainFractal.process_ring_memory_optimized zeroStat zeroMap zeroMap zeroMap)
        [task1, task0]).Perm
      (MainFractal.pool_results
        (MainFractal.process_ring_memory_optimized zeroStat zeroMap zeroMap zeroMap)
        [task0, task1]) := by
  have hp : [task0, task1].Perm [task1, task0] := List.Perm.swap task1 task0 []
  exact ⟨hp, C5_pool_permutation zeroStat zeroMap zeroMap zeroMap
    [task0, task1] [task1, task0] hp⟩

/-- C6: `get_ring_pixels` returns exactly the pixels of the disc of radius
`radius_rad + width_rad/2` that are not in the disc of radius
`radius_rad - width_rad/2` when `radius_rad > width_rad/2`, and the entire
outer disc (the query degenerates to a full disc) when
`radius_rad <= width_rad/2`. -/
theorem C6_ring_query (query_disc : ℕ → ℚ × ℚ × ℚ → ℚ → Finset ℕ) (nside : ℕ)
    (center_vec : ℚ × ℚ × ℚ) (radius_rad width_rad : ℚ) :
    (width_rad / 2 < radius_rad →
      MainFractal.get_ring_pixels query_disc nside center_vec radius_rad width_rad =
        query_disc nside center_vec (radius_rad + width_rad / 2) \
          query_disc nside center_vec (radius_rad - width_rad / 2)) ∧
    (radius_rad ≤ width_rad / 2 →
      MainFractal.get_ring_pixels query_disc nside center_vec radius_rad width_rad =
        query_disc nside center_vec (radius_rad + width_rad / 2)) := by
  unfold MainFractal.get_ring_pixels
  dsimp only
  constructor
  · intro h
    rw [if_pos (by linarith : (0 : ℚ) < radius_rad - width_rad / 2)]
  · intro h
    rw [if_neg (not_lt.mpr (by linarith : radius_rad - width_rad / 2 ≤ 0))]

/-- Witness for C6: the empty disc query at `radius_rad = 1`,
`width_rad = 1`, which satisfies `width_rad/2 < radius_rad`. -/
theorem C6_ring_query_witness :
    ((1 : ℚ) / 2 < 1) ∧
    MainFractal.get_ring_pixels emptyDisc 8 (0, 0, 0) 1 1 =
      emptyDisc 8 (0, 0, 0) (1 + 1 / 2) \ emptyDisc 8 (0, 0, 0) (1 - 1 / 2) := by
  have h : (1 : ℚ) / 2 < 1 := by norm_num
  exact ⟨h, (C6_ring_query emptyDisc 8 (0, 0, 0) 1 1).1 h⟩

/-- C7: the walker scripts have no error recovery. When the input FITS file
does not exist, `run_spider_v8` and `cosmic_ruler` print an error message
and return immediately: the whole effect trace of the run is the two console
messages, with no retry, no fallback, no FITS read, no CSV written and no
image written. -/
theorem C7_missing_file_no_output (file_exists : String → Bool)
    (search_zone_empty : Bool)
    (h : file_exists SabuesoV8.INPUT_FILE = false) :
    SabuesoV8.run_spider_v8_trace file_exists =
        [Effect.console, Effect.console] ∧
    (∀ e ∈ SabuesoV8.run_spider_v8_trace file_exists, e = Effect.console) ∧
    CosmicRuler.cosmic_ruler_trace file_exists search_zone_empty =
        [Effect.console, Effect.console] ∧
    (∀ e ∈ CosmicRuler.cosmic_ruler_trace file_exists search_zone_empty,
      e = Effect.console) := by
  have h2 : file_exists CosmicRuler.INPUT_FILE = false := h
  have ht1 : SabuesoV8.run_spider_v8_trace file_exists =
      [Effect.console, Effect.console] := by
    unfold SabuesoV8.run_spider_v8_trace
    rw [if_pos h]
  have ht2 : CosmicRuler.cosmic_ruler_trace file_exists search_zone_empty =
      [Effect.console, Effect.console] := by
    unfold CosmicRuler.cosmic_ruler_trace
    rw [if_pos h2]
  refine ⟨ht1, ?_, ht2, ?_⟩
  · intro e he
    rw [ht1] at he
    simp only [List.mem_cons, List.not_mem_nil, or_false] at he
    rcases he with rfl | rfl <;> rfl
  · intro e he
    rw [ht2] at he
    simp only [List.mem_cons, List.not_mem_nil, or_false] at he
    rcases he with rfl | rfl <;> rfl

/-- Witness for C7: the file system on which no file exists. -/
theorem C7_missing_file_no_output_witness :
    ((fun _ : String => false) SabuesoV8.INPUT_FILE = false) ∧
    SabuesoV8.run_spider_v8_trace (fun _ => false) =
        [Effect.console, Effect.console] ∧
    CosmicRuler.cosmic_ruler_trace (fun _ => false) true =
        [Effect.console, Effect.console] := by
  have h : (fun _ : String => false) SabuesoV8.INPUT_FILE = false := rfl
  obtain ⟨h1, -, h3, -⟩ := C7_missing_file_no_output (fun _ => false) true h
  exact ⟨h, h1, h3⟩

/-- C1 counterexample: the universal claim that every script loads a CMB sky
map and emits a plot and/or CSV fails at the concrete script
`2_check_coords.py`, which is in the repository but loads no sky map and
writes neither a plot nor a CSV (it only prints pixel-to-coordinate
conversions). -/
theorem C1_counterexample :
    ((⟨"2_check_coords.py", false, false, false⟩ : ScriptsIO.ScriptIO) ∈
      ScriptsIO.scripts) ∧
    ¬ ∀ s ∈ ScriptsIO.scripts, s.loads_sky_map = true ∧
        (s.writes_plot = true ∨ s.writes_csv = true) := by
  constructor
  · decide
  · intro hall
    have h := hall ⟨"2_check_coords.py", false, false, false⟩ (by decide)
    simp at h

/-- C1 (amended): every script other than the seven print-only ones
(`2_check_coords.py`, `4_calc_sigma_significance.py`,
`10_cosmic_gps_locator.py`, `12_monte_carlo_sigma_test.py`,
`19_casimir_dark_energy.py`, `20_holographic_entropy.py`,
`21_euler_topology_check.py`) emits a plot and/or a CSV file, while each of
those seven loads no CMB sky map and emits neither a plot nor a CSV, only
printed (or plain-text) results. -/
theorem C1_amended_output_profile :
    (∀ s ∈ ScriptsIO.scripts, s.name ∉ ScriptsIO.print_only_scripts →
      (s.writes_plot = true ∨ s.writes_csv = true)) ∧
    (∀ s ∈ ScriptsIO.scripts, s.name ∈ ScriptsIO.print_only_scripts →
      (s.loads_sky_map = false ∧ s.writes_plot = false ∧
        s.writes_csv = false)) := by
  constructor
  · decide
  · decide

/-- Witness for C1 (amended): the script `6_sabueso_v8_final.py` is not
print-only, and the amended theorem yields its plot/CSV output concretely. -/
theorem C1_amended_output_profile_witness :
    ((⟨"6_sabueso_v8_final.py", true, true, true⟩ : ScriptsIO.ScriptIO) ∈
      ScriptsIO.scripts) ∧
    ("6_sabueso_v8_final.py" ∉ ScriptsIO.print_only_scripts) ∧
    ((⟨"6_sabueso_v8_final.py", true, true, true⟩ :
        ScriptsIO.ScriptIO).writes_plot = true ∨
      (⟨"6_sabueso_v8_final.py", true, true, true⟩ :
        ScriptsIO.ScriptIO).writes_csv = true) := by
  have hmem : (⟨"6_sabueso_v8_final.py", true, true, true⟩ :
      ScriptsIO.ScriptIO) ∈ ScriptsIO.scripts := by decide
  have hnot : "6_sabueso_v8_final.py" ∉ ScriptsIO.print_only_scripts := by decide
  exact ⟨hmem, hnot, C1_amended_output_profile.1 _ hmem hnot⟩
